import Mathlib

/-!
Verification of the KafkaSplitter (kemux) core against its specification.

The Python source is embedded shallowly:

* `src/kemux/data/io/output.py` → `StreamOutput.send`, `StreamOutput.declare`
* `src/kemux/data/io/base.py`   → `getHandler` (the `IOBase._get_handler` /
  `IOBase._initialize_handler` pair, including the fact that the `async`
  initializer is invoked without `await`, so its body never runs)
* `src/kemux/logic/processing.py` → `classifyModels`, `Processor.init`,
  `Processor.start`

Pieces of the repository that the embedded files reference but that are not
part of the given sources (the schema classes, the routing module, the
event-loop helper) are modelled from the specification and carry a doc
comment saying so.
-/

set_option autoImplicit false

namespace Kemux

/-- A message is an unordered field-name → value mapping; values are kept as
strings since the wire format is structured text (spec §6). -/
abbrev Message := List (String × String)

/-- A value handed to the broker: either a structured record (the normal
case) or a raw string (used only for the `'__kemux_init__'` init marker in
`StreamOutput.__declare`). -/
inductive KafkaValue where
  | record (fields : Message)
  | raw (s : String)
deriving DecidableEq, Repr

/-- Modelled from the spec: the `OutputSchema` class (module
`kemux.data.schema.output`, not among the given sources) owns a pure, total
`transform(message) -> message` function and a `validate(message) -> bool`
predicate (spec §3, §4.1). `StreamOutput.send` only ever calls these two
methods, so the schema is embedded as this pair of functions. -/
structure SchemaOps where
  transform : Message → Message
  validate : Message → Bool

/-- Observable effects of one `StreamOutput.send` call: the two logger calls
and the broker publish (`await cls.topic_handler.send(value=...)`). -/
inductive SendEffect where
  | logSending (v : Message)
  | publish (v : KafkaValue)
  | logInvalid (v : Message)
deriving DecidableEq, Repr

/-- Embedding of `StreamOutput.send` (src/kemux/data/io/output.py):
transform the message, log it, then publish the transformed message iff it
validates, otherwise log a warning with the ORIGINAL message.  The Python
body has no `raise` and no exception handler; the embedding is a total
function returning the effect trace, mirroring that no exception propagates
to the caller on the invalid path. -/
def StreamOutput.send (schema : SchemaOps) (message : Message) : List SendEffect :=
  let transformedMessage := schema.transform message
  .logSending transformedMessage ::
    (if schema.validate transformedMessage then
      [.publish (.record transformedMessage)]
    else
      [.logInvalid message])

/-- Whether an effect trace contains a broker publish. -/
def publishes (effects : List SendEffect) : Bool :=
  effects.any fun e =>
    match e with
    | .publish _ => true
    | _ => false

/-- Whether an effect trace contains the invalid-message warning. -/
def warns (effects : List SendEffect) : Bool :=
  effects.any fun e =>
    match e with
    | .logInvalid _ => true
    | _ => false

/-- Broker-level operations awaited by `StreamOutput.__declare`. -/
inductive BrokerOp where
  | declareTopic (topic : String)
  | sendValue (topic : String) (v : KafkaValue)
deriving DecidableEq, Repr

/-- A straight-line coroutine: a sequence of awaited broker operations. -/
inductive Coro where
  | done
  | step (op : BrokerOp) (rest : Coro)
deriving DecidableEq, Repr

/-- The broker operations performed when a coroutine is run to completion. -/
def Coro.trace : Coro → List BrokerOp
  | .done => []
  | .step op rest => op :: rest.trace

/-- Embedding of `StreamOutput.__declare` (src/kemux/data/io/output.py): it
awaits `cls.topic_handler.declare()` and then awaits
`cls.topic_handler.send(value='__kemux_init__')`.  The topic handle is
identified by its topic name (the handle attribute itself lives in code
outside the given sources). -/
def StreamOutput.declareCoro (topic : String) : Coro :=
  .step (.declareTopic topic) (.step (.sendValue topic (.raw "__kemux_init__")) .done)

/-- Modelled from the spec: `kemux.logic.concurrency.try_in_event_loop`
(module not among the given sources) runs a coroutine to completion on the
process event loop (spec §5 treats declare/send awaits as plain suspension
points of one cooperative loop); its observable behaviour is the coroutine's
operation trace. -/
def tryInEventLoop (coro : Coro) : List BrokerOp :=
  coro.trace

/-- Embedding of `StreamOutput.declare`: wraps `__declare` in
`try_in_event_loop` and returns the broker operations performed. -/
def StreamOutput.declare (topic : String) : List BrokerOp :=
  tryInEventLoop (StreamOutput.declareCoro topic)

/-- The opaque handle produced by `app.topic(...)`, identified by its topic. -/
structure TopicHandler where
  topic : String
deriving DecidableEq, Repr

/-- The mutable class-level state of `IOBase` relevant to handler
initialization: `cls._topic_handler`, plus instrumentation counting how many
`declare()` calls were actually executed against the runtime and how many
coroutine objects were created without ever being awaited. -/
structure HandlerState where
  topicHandler : Option TopicHandler := none
  declares : Nat := 0
  pendingCoroutines : Nat := 0
deriving DecidableEq, Repr

/-- The BODY of the `async` classmethod `IOBase._initialize_handler`
(src/kemux/data/io/base.py): create the topic handle via `app.topic(...)`,
assign it to `cls._topic_handler`, and await its `declare()`.  In Python this
body only executes if the coroutine is awaited or scheduled. -/
def initHandlerBody (topic : String) (s : HandlerState) : HandlerState :=
  { s with topicHandler := some ⟨topic⟩, declares := s.declares + 1 }

/-- Embedding of `IOBase._get_handler` (src/kemux/data/io/base.py).  The
source reads:
`if cls._topic_handler is None: cls._initialize_handler(app)` then
`return cls._topic_handler`.  `_initialize_handler` is `async def`, and the
call carries no `await` and is not scheduled as a task, so in Python it
merely constructs a coroutine object that is immediately discarded: the body
(`initHandlerBody`) does not run.  `_get_handler` itself is a plain sync
method, hence atomic under the cooperative event loop. -/
def getHandler (s : HandlerState) : Option TopicHandler × HandlerState :=
  if s.topicHandler.isNone then
    let s1 : HandlerState := { s with pendingCoroutines := s.pendingCoroutines + 1 }
    (s1.topicHandler, s1)
  else
    (s.topicHandler, s)

/-- `n` successive calls to `_get_handler` (the cooperative loop serializes
them; `_get_handler` has no suspension point): the list of values each
caller observed, and the final class-level state. -/
def runGetHandlerN : Nat → HandlerState → List (Option TopicHandler) × HandlerState
  | 0, s => ([], s)
  | n + 1, s =>
    let r1 := getHandler s
    let rest := runGetHandlerN n r1.2
    (r1.1 :: rest.1, rest.2)

/-- Classification capability of a discovered stream class: which of
`kemux.data.streams.output.OutputStream` / `...input.InputStream` it is a
subclass of (`issubclass` checks in `classify_models`; checked in that
order). -/
inductive StreamKind where
  | input
  | output
  | neither
deriving DecidableEq, Repr

/-- Classification capability of a discovered schema class: which of
`OutputSchema` / `InputSchema` it is a subclass of. -/
inductive SchemaKind where
  | input
  | output
  | other
deriving DecidableEq, Repr

/-- Modelled from the spec where its class body is concerned: the schema
classes (`kemux.data.schemas.*`, not among the given sources) carry the
mutable class attributes that `classify_models` touches — whether
`_find_decorated_fields()` has collected the declared field validators and
whether `_construct_record_class()` has generated the record type
(spec §3, §4.4 step 5). -/
structure SchemaClass where
  kind : SchemaKind
  fieldsCollected : Bool := false
  recordConstructed : Bool := false
deriving DecidableEq, Repr

/-- A discovered stream class with the mutable class attributes that
`classify_models` assigns: `topic` (set to the module file stem) and
`schema` (set to the module's schema class on acceptance). -/
structure StreamClass where
  kind : StreamKind
  topic : Option String := none
  schema : Option SchemaClass := none
deriving DecidableEq, Repr

/-- One candidate file of the streams directory as `classify_models` sees
it: its filename, whether `SourceFileLoader(...).load_module()` succeeds,
and the module's `Stream` / `Schema` attributes (`getattr(module, 'Stream',
None)` yields `none` when absent). -/
structure SrcModule where
  filename : String
  loads : Bool
  streamClass : Option StreamClass
  schemaClass : Option SchemaClass
deriving DecidableEq, Repr

/-- The Python exceptions `classify_models` can raise. -/
inductive PyError where
  | valueError (msg : String)
  | attributeError (msg : String)
deriving DecidableEq, Repr

/-- Python `str.endswith`. -/
def pyEndsWith (s suffix : String) : Bool :=
  List.isSuffixOf suffix.data s.data

/-- Python `str.removesuffix`: drop the suffix when present, else return the
string unchanged. -/
def pyRemoveSuffix (s suffix : String) : String :=
  if pyEndsWith s suffix then ⟨s.data.take (s.data.length - suffix.data.length)⟩ else s

/-- Python `dict` insertion: replace in place when the key is present,
append otherwise. -/
def dictInsert {α : Type} (d : List (String × α)) (k : String) (v : α) : List (String × α) :=
  match d with
  | [] => [(k, v)]
  | (k1, v1) :: rest => if k1 = k then (k, v) :: rest else (k1, v1) :: dictInsert rest k v

/-- Python `dict` lookup. -/
def dictLookup {α : Type} (d : List (String × α)) (k : String) : Option α :=
  match d with
  | [] => none
  | (k1, v1) :: rest => if k1 = k then some v1 else dictLookup rest k

/-- Accumulated state of the `classify_models` loop: the two result
dictionaries, the logger output, and the post-loop state of every processed
module (recording the mutations performed on its classes). -/
structure ClassifyAcc where
  inputModels : List (String × StreamClass) := []
  outputModels : List (String × StreamClass) := []
  log : List String := []
  processed : List SrcModule := []
deriving DecidableEq, Repr

/-- One iteration of the `classify_models` loop
(src/kemux/logic/processing.py).  Faithful to the source, including:

* a module that fails to import is logged and skipped (`continue`);
* a missing `Stream` or `Schema` class is LOGGED BUT NOT SKIPPED — there is
  no `continue` after those two `if not (... := getattr(...))` checks, so
  control falls through to `stream_class.topic = module_name` /
  `schema_class._find_decorated_fields()`, which raise `AttributeError` on
  `None`;
* `stream_class.topic` is assigned and `_find_decorated_fields()` is invoked
  BEFORE the capability-pairing checks, so a module dropped by those checks
  still has its classes mutated;
* on a pairing mismatch the module is dropped (`continue`) after logging;
* accepted classes are inserted under the module file stem, and for input
  modules `_construct_record_class()` runs before the insertion. -/
def processModule (acc : ClassifyAcc) (m : SrcModule) : Except PyError ClassifyAcc :=
  let moduleName := pyRemoveSuffix m.filename ".py"
  if m.loads = false then
    .ok { acc with
            log := acc.log ++ ["Failed to import stream module: " ++ moduleName],
            processed := acc.processed ++ [m] }
  else
    let log1 := acc.log
      ++ (if m.streamClass.isNone then
            ["Invalid stream module: " ++ moduleName ++ ". No Stream class found"] else [])
      ++ (if m.schemaClass.isNone then
            ["Invalid stream module: " ++ moduleName ++ ". No Schema class found"] else [])
    match m.streamClass with
    | none => .error (.attributeError "NoneType object has no attribute topic")
    | some sc0 =>
      match m.schemaClass with
      | none => .error (.attributeError "NoneType object has no attribute _find_decorated_fields")
      | some ch0 =>
        let sc1 : StreamClass := { sc0 with topic := some moduleName }
        let ch1 : SchemaClass := { ch0 with fieldsCollected := true }
        match sc1.kind with
        | .output =>
          if ch1.kind = SchemaKind.output then
            let sc2 : StreamClass := { sc1 with schema := some ch1 }
            .ok { acc with
                    outputModels := dictInsert acc.outputModels moduleName sc2,
                    log := log1,
                    processed := acc.processed ++
                      [{ m with streamClass := some sc2, schemaClass := some ch1 }] }
          else
            .ok { acc with
                    log := log1 ++ ["Invalid stream module: " ++ moduleName
                      ++ ". Schema class is not an OutputSchema"],
                    processed := acc.processed ++
                      [{ m with streamClass := some sc1, schemaClass := some ch1 }] }
        | .input =>
          if ch1.kind = SchemaKind.input then
            let ch2 : SchemaClass := { ch1 with recordConstructed := true }
            let sc2 : StreamClass := { sc1 with schema := some ch2 }
            .ok { acc with
                    inputModels := dictInsert acc.inputModels moduleName sc2,
                    log := log1,
                    processed := acc.processed ++
                      [{ m with streamClass := some sc2, schemaClass := some ch2 }] }
          else
            .ok { acc with
                    log := log1 ++ ["Invalid stream module: " ++ moduleName
                      ++ ". Schema class is not an InputSchema"],
                    processed := acc.processed ++
                      [{ m with streamClass := some sc1, schemaClass := some ch1 }] }
        | .neither =>
          .ok { acc with
                  log := log1 ++ ["Invalid stream module: " ++ moduleName
                    ++ ". Class is neither an Input or Output stream"],
                  processed := acc.processed ++
                    [{ m with streamClass := some sc1, schemaClass := some ch1 }] }

/-- Embedding of `Processor.classify_models` (src/kemux/logic/processing.py):
raise `ValueError` unless the streams directory exists, keep the `.py`
entries of its listing, and fold the per-module step over them. -/
def classifyModels (streamsDir : String) (dirExists : Bool) (listing : List SrcModule) :
    Except PyError ClassifyAcc :=
  if dirExists = false then
    .error (.valueError ("Invalid streams directory: " ++ streamsDir))
  else
    (listing.filter fun m => pyEndsWith m.filename ".py").foldlM processModule {}

/-- The filesystem as `classify_models` observes it: whether the configured
streams directory exists and, when it does, its `os.listdir` listing. -/
structure StreamsDir where
  dirExists : Bool
  listing : List SrcModule
deriving DecidableEq, Repr

/-- Arguments of the classmethod `Processor.init`. -/
structure ProcessorArgs where
  kafkaAddress : String
  dataDir : String
  streamsDir : String
deriving DecidableEq, Repr

/-- The fields of a constructed `Processor` instance that `init` fills in:
the dataclass fields plus the classified models handed to the `Router`. -/
structure ProcessorInstance where
  kafkaAddress : String
  streamsDir : String
  persistentDataDirectory : String
  inputs : List (String × StreamClass) := []
  outputs : List (String × StreamClass) := []
deriving DecidableEq, Repr

/-- Class-level mutable state of the `Processor` dataclass: the
name-mangled `Processor.__instance` attribute, plus instrumentation
counting constructor runs and discovery (`classify_models`) runs. -/
structure ProcState where
  inst : Option ProcessorInstance := none
  constructions : Nat := 0
  discoveries : Nat := 0
deriving DecidableEq, Repr

/-- Embedding of the classmethod `Processor.init`
(src/kemux/logic/processing.py): when `cls.__instance` is `None`, construct
an instance, run `classify_models` (whose `ValueError` propagates), build
the `Router` inputs/outputs, store the instance in `cls.__instance`; in
every case return `cls.__instance`.  The returned pair is (result, new
class-level state); an `.error` result models the raised exception. -/
def Processor.init (fs : StreamsDir) (s : ProcState) (args : ProcessorArgs) :
    Except PyError ProcessorInstance × ProcState :=
  match s.inst with
  | some i => (.ok i, s)
  | none =>
    let s1 : ProcState :=
      { s with constructions := s.constructions + 1, discoveries := s.discoveries + 1 }
    match classifyModels args.streamsDir fs.dirExists fs.listing with
    | .error e => (.error e, s1)
    | .ok acc =>
      let i : ProcessorInstance :=
        { kafkaAddress := args.kafkaAddress,
          streamsDir := args.streamsDir,
          persistentDataDirectory := args.dataDir,
          inputs := acc.inputModels,
          outputs := acc.outputModels }
      (.ok i, { s1 with inst := some i })

/-- An input stream as `Processor.start` iterates over
`self.__router.inputs.values()`; only its identity (topic) matters to the
routing callback. -/
structure InputStreamRef where
  topic : String
deriving DecidableEq, Repr

/-- The call `self.__router.route(stream, message)` that the consumption
callback makes, recorded with the identity of the stream argument. -/
structure RouteCall where
  streamTopic : String
  message : Message
deriving DecidableEq, Repr

/-- Result of `Processor.start`'s registration loop: the topics for which an
agent was registered (the keys of `self.__agents`), and the shared closure
environment — all the `_process_input_stream_message` closures reference the
single local variable `stream` of `start`, which they read when the agent
body runs, i.e. after the loop has finished (agents execute only once
`self._app.main()` is entered). -/
structure StartResult where
  agentTopics : List String
  loopStreamFinal : Option InputStreamRef
deriving DecidableEq, Repr

/-- The `for stream in ...` registration loop of `Processor.start`
(src/kemux/logic/processing.py): each iteration rebinds the loop variable,
registers an agent keyed by the current stream's topic whose callback closes
over the VARIABLE `stream` (Python closures capture by reference, not by
value), and the loop variable retains its last value afterwards. -/
def startLoop : List InputStreamRef → Option InputStreamRef →
    List String × Option InputStreamRef
  | [], cell => ([], cell)
  | stream :: rest, _ =>
    let cell := some stream
    let r := startLoop rest cell
    (stream.topic :: r.1, r.2)

/-- Embedding of `Processor.start` up to the blocking `self._app.main()`
call: run the registration loop and keep the closure environment in which
the registered callbacks will later execute. -/
def Processor.start (inputs : List InputStreamRef) : StartResult :=
  let r := startLoop inputs none
  { agentTopics := r.1, loopStreamFinal := r.2 }

/-- One message delivery by the external scheduler to the agent registered
for `topic`, after `app.main()` has started: the callback body executes
`self.__router.route(stream, message)`, reading the variable `stream` from
the (post-loop) closure environment. -/
def deliverMessage (r : StartResult) (topic : String) (message : Message) :
    Option RouteCall :=
  if topic ∈ r.agentTopics then
    r.loopStreamFinal.map fun stream => { streamTopic := stream.topic, message := message }
  else
    none

/-- Does a broker operation send the `'__kemux_init__'` init-marker value? -/
def isInitMarkerSend (op : BrokerOp) : Bool :=
  match op with
  | .sendValue _ (.raw s) => s = "__kemux_init__"
  | _ => false

/-! Theorems. -/

/-- Claim C1: `StreamOutput.send` publishes to the broker iff
`schema.validate (schema.transform message)` holds; when validation fails no
publish occurs and a warning is logged (the total embedding returns
normally, mirroring that the invalid message is dropped, never raised); and
the value published, when any, is exactly the transformed message, exactly
once. -/
theorem send_publishes_iff_transformed_message_valid
    (schema : SchemaOps) (message : Message) :
    publishes (StreamOutput.send schema message)
        = schema.validate (schema.transform message) ∧
    warns (StreamOutput.send schema message)
        = !schema.validate (schema.transform message) ∧
    (StreamOutput.send schema message).countP
        (fun e => decide (e = SendEffect.publish (.record (schema.transform message))))
      = (if schema.validate (schema.transform message) then 1 else 0) := by
  unfold StreamOutput.send publishes warns
  cases h : schema.validate (schema.transform message) <;>
    simp [h, List.countP_cons]

/-- Claim C2 (failing run): on a stream class whose `_topic_handler` is
still `None`, the first call to `_get_handler` returns `None` — not a
declared handle — and executes zero declarations, because the `async`
`_initialize_handler` is invoked without `await`, leaving only a discarded
coroutine object behind. -/
theorem getHandler_first_access_returns_none :
    getHandler { topicHandler := none, declares := 0, pendingCoroutines := 0 }
      = (none, { topicHandler := none, declares := 0, pendingCoroutines := 1 }) := by
  rfl

theorem runGetHandlerN_stuck (n : Nat) (s : HandlerState) (h : s.topicHandler = none) :
    (runGetHandlerN n s).1 = List.replicate n none ∧
    (runGetHandlerN n s).2.topicHandler = none ∧
    (runGetHandlerN n s).2.declares = s.declares ∧
    (runGetHandlerN n s).2.pendingCoroutines = s.pendingCoroutines + n := by
  induction n generalizing s with
  | zero => simp [runGetHandlerN, h]
  | succ n ih =>
    have hg : getHandler s = (none, { s with pendingCoroutines := s.pendingCoroutines + 1 }) := by
      simp [getHandler, h]
    have hrec := ih { s with pendingCoroutines := s.pendingCoroutines + 1 } h
    simp only [runGetHandlerN, hg]
    refine ⟨?_, hrec.2.1, hrec.2.2.1, ?_⟩
    · simp [hrec.1, List.replicate]
    · have h2 := hrec.2.2.2
      simp at h2
      simp [h2]
      omega

/-- Claim C5 (failing run): for ANY number `n` of successive first-access
callers racing on an uninitialized topic handler, the code performs ZERO
actual declarations (not the one the spec demands), every caller observes
`None` rather than a declared handle, and `n` coroutine objects are created
and never awaited. -/
theorem getHandler_n_callers_zero_declarations (n : Nat) :
    (runGetHandlerN n { topicHandler := none, declares := 0, pendingCoroutines := 0 }).1
        = List.replicate n none ∧
    (runGetHandlerN n { topicHandler := none, declares := 0, pendingCoroutines := 0 }).2.declares
        = 0 ∧
    (runGetHandlerN n
        { topicHandler := none, declares := 0, pendingCoroutines := 0 }).2.pendingCoroutines
      = n := by
  have h := runGetHandlerN_stuck n { topicHandler := none, declares := 0, pendingCoroutines := 0 }
    rfl
  exact ⟨h.1, h.2.2.1, by have h2 := h.2.2.2; simpa using h2⟩

/-- Claim C7: declaring an output stream first declares the topic handle
against the runtime and then publishes exactly one init-marker sentinel
(`'__kemux_init__'`) to that topic. -/
theorem declare_declares_then_sends_one_init_marker (topic : String) :
    StreamOutput.declare topic
        = [.declareTopic topic, .sendValue topic (.raw "__kemux_init__")] ∧
    (StreamOutput.declare topic).head? = some (.declareTopic topic) ∧
    (StreamOutput.declare topic).countP isInitMarkerSend = 1 := by
  refine ⟨rfl, rfl, ?_⟩
  simp [StreamOutput.declare, tryInEventLoop, StreamOutput.declareCoro, Coro.trace,
    List.countP_cons, isInitMarkerSend]

/-- Claim C3 (failing run): a module that loads but exposes no `Stream`
class, and likewise one that exposes no `Schema` class, is NOT skipped:
after logging, `classify_models` falls through to
`stream_class.topic = module_name` / `schema_class._find_decorated_fields()`
on `None` and raises `AttributeError`, aborting discovery instead of
continuing with the remaining modules (here a subsequent well-formed module
is never reached). -/
theorem classifyModels_crashes_on_module_missing_class :
    classifyModels "streams" true
        [{ filename := "nostream.py", loads := true, streamClass := none,
           schemaClass := some { kind := SchemaKind.input } },
         { filename := "good.py", loads := true,
           streamClass := some { kind := StreamKind.input },
           schemaClass := some { kind := SchemaKind.input } }]
      = .error (.attributeError "NoneType object has no attribute topic") ∧
    classifyModels "streams" true
        [{ filename := "noschema.py", loads := true,
           streamClass := some { kind := StreamKind.input }, schemaClass := none }]
      = .error (.attributeError "NoneType object has no attribute _find_decorated_fields") := by
  constructor <;> rfl

/-- Claim C4 (failing run): with two input streams registered in order
`alpha`, `beta`, a message delivered to topic `alpha`'s agent is routed with
stream `beta` — every callback reads the shared loop variable `stream`,
which after the registration loop holds the LAST input stream. -/
theorem start_agent_routes_with_last_loop_stream :
    deliverMessage (Processor.start [⟨"alpha"⟩, ⟨"beta"⟩]) "alpha" [("key", "value")]
        = some { streamTopic := "beta", message := [("key", "value")] } ∧
    Processor.start [⟨"alpha"⟩, ⟨"beta"⟩]
        = { agentTopics := ["alpha", "beta"], loopStreamFinal := some ⟨"beta"⟩ } := by
  constructor <;> rfl

/-- Claim C8: a non-existent streams directory makes `classify_models`
raise `ValueError` (rather than return a classification), and the raise
propagates out of `Processor.init`, so no instance is produced and the run
loop is never reached. -/
theorem classifyModels_missing_directory_fatal
    (streamsDir : String) (listing : List SrcModule) (args : ProcessorArgs)
    (fsListing : List SrcModule) :
    classifyModels streamsDir false listing
        = .error (.valueError ("Invalid streams directory: " ++ streamsDir)) ∧
    (Processor.init ⟨false, fsListing⟩ { inst := none, constructions := 0, discoveries := 0 }
        args).1
      = .error (.valueError ("Invalid streams directory: " ++ args.streamsDir)) := by
  constructor
  · rfl
  · simp [Processor.init, classifyModels]

/-- Claim C9: `Processor.init` is an idempotent singleton constructor: once
a call has produced an instance `i` (stored in the class-level
`__instance`), any later call — with any arguments and any filesystem —
returns that same `i` and leaves the class-level state untouched (its
construction and discovery counters do not advance: no new `Processor` is
built and discovery is not re-run). -/
theorem Processor.init_returns_existing_instance
    (fs fs2 : StreamsDir) (s s2 : ProcState) (a b : ProcessorArgs)
    (i : ProcessorInstance)
    (h : Processor.init fs s a = (.ok i, s2)) :
    Processor.init fs2 s2 b = (.ok i, s2) := by
  cases hs : s.inst with
  | some j =>
    simp only [Processor.init, hs] at h
    have h1 : j = i := by
      have := congrArg Prod.fst h
      simpa using this
    have h2 : s = s2 := by
      have := congrArg Prod.snd h
      simpa using this
    subst h2
    simp [Processor.init, hs, h1]
  | none =>
    simp only [Processor.init, hs] at h
    cases hc : classifyModels a.streamsDir fs.dirExists fs.listing with
    | error e =>
      rw [hc] at h
      have := congrArg Prod.fst h
      simp at this
    | ok acc =>
      rw [hc] at h
      have h1 := congrArg Prod.fst h
      have h2 := congrArg Prod.snd h
      simp at h1 h2
      subst h1
      subst h2
      simp [Processor.init]

/-- Witness for C9 at a concrete first call: broker `kafka:9092`, empty
streams directory; the second call passes entirely different arguments and
still gets the first instance back with the state unchanged. -/
theorem Processor.init_returns_existing_instance_witness :
    Processor.init ⟨true, []⟩
        { inst := some { kafkaAddress := "kafka:9092", streamsDir := "streams",
                         persistentDataDirectory := "/data", inputs := [], outputs := [] },
          constructions := 1, discoveries := 1 }
        ⟨"elsewhere:1234", "/other", "other_streams"⟩
      = (.ok { kafkaAddress := "kafka:9092", streamsDir := "streams",
               persistentDataDirectory := "/data", inputs := [], outputs := [] },
         { inst := some { kafkaAddress := "kafka:9092", streamsDir := "streams",
                          persistentDataDirectory := "/data", inputs := [], outputs := [] },
           constructions := 1, discoveries := 1 }) :=
  Processor.init_returns_existing_instance
    ⟨true, []⟩ ⟨true, []⟩
    { inst := none, constructions := 0, discoveries := 0 }
    { inst := some { kafkaAddress := "kafka:9092", streamsDir := "streams",
                     persistentDataDirectory := "/data", inputs := [], outputs := [] },
      constructions := 1, discoveries := 1 }
    ⟨"kafka:9092", "/data", "streams"⟩
    ⟨"elsewhere:1234", "/other", "other_streams"⟩
    { kafkaAddress := "kafka:9092", streamsDir := "streams",
      persistentDataDirectory := "/data", inputs := [], outputs := [] }
    (by rfl)

/-- Claim C6: for any two well-formed output modules with the SAME filename
(hence the same stem), classification succeeds, the accepted stream class is
bound under the module file stem with its `topic` attribute set to that
stem, and the later module in listing order wins the collision: the final
dictionary maps the stem to the second module's (mutated) stream class. -/
theorem classifyModels_binds_stem_and_last_module_wins
    (dir f : String) (hf : pyEndsWith f ".py" = true)
    (s1 s2 : StreamClass) (c1 c2 : SchemaClass)
    (hs1 : s1.kind = StreamKind.output) (hc1 : c1.kind = SchemaKind.output)
    (hs2 : s2.kind = StreamKind.output) (hc2 : c2.kind = SchemaKind.output) :
    Except.map
        (fun acc => dictLookup acc.outputModels (pyRemoveSuffix f ".py"))
        (classifyModels dir true
          [{ filename := f, loads := true, streamClass := some s1, schemaClass := some c1 },
           { filename := f, loads := true, streamClass := some s2, schemaClass := some c2 }])
      = .ok (some { s2 with topic := some (pyRemoveSuffix f ".py"),
                            schema := some { c2 with fieldsCollected := true } }) := by
  simp [classifyModels, List.filter, hf, List.foldlM, processModule,
    hs1, hc1, hs2, hc2, dictInsert, dictLookup, Except.map, Except.bind, bind,
    pure, Except.pure]

/-- Witness for C6: two colliding output modules both named `dup.py`; the
second one's class ends up under key `dup`, with its topic set to `dup`. -/
theorem classifyModels_binds_stem_and_last_module_wins_witness :
    Except.map
        (fun acc => dictLookup acc.outputModels (pyRemoveSuffix "dup.py" ".py"))
        (classifyModels "streams" true
          [{ filename := "dup.py", loads := true,
             streamClass := some ⟨StreamKind.output, none, none⟩,
             schemaClass := some ⟨SchemaKind.output, false, false⟩ },
           { filename := "dup.py", loads := true,
             streamClass := some ⟨StreamKind.output, some "stale", none⟩,
             schemaClass := some ⟨SchemaKind.output, true, false⟩ }])
      = .ok (some { kind := StreamKind.output, topic := some (pyRemoveSuffix "dup.py" ".py"),
                    schema := some ⟨SchemaKind.output, true, false⟩ }) :=
  classifyModels_binds_stem_and_last_module_wins "streams" "dup.py" (by decide)
    ⟨StreamKind.output, none, none⟩ ⟨StreamKind.output, some "stale", none⟩
    ⟨SchemaKind.output, false, false⟩ ⟨SchemaKind.output, true, false⟩
    rfl rfl rfl rfl

/-- Claim C10: a module whose stream class is an `OutputStream` but whose
schema fails the `OutputSchema` pairing check is dropped from both result
dictionaries — yet its classes do NOT come out unchanged: its stream
class's `topic` has been set to the file stem and its schema's field
collection has run, because both mutations precede the pairing check. -/
theorem classifyModels_mutates_module_dropped_by_pairing_check
    (dir f : String) (hf : pyEndsWith f ".py" = true)
    (sc : StreamClass) (ch : SchemaClass)
    (hsc : sc.kind = StreamKind.output) (hch : ch.kind ≠ SchemaKind.output) :
    classifyModels dir true
        [{ filename := f, loads := true, streamClass := some sc, schemaClass := some ch }]
      = .ok { inputModels := [],
              outputModels := [],
              log := ["Invalid stream module: " ++ pyRemoveSuffix f ".py"
                ++ ". Schema class is not an OutputSchema"],
              processed :=
                [{ filename := f, loads := true,
                   streamClass := some { sc with topic := some (pyRemoveSuffix f ".py") },
                   schemaClass := some { ch with fieldsCollected := true } }] } := by
  simp [classifyModels, List.filter, hf, List.foldlM, processModule, hsc, hch]

/-- Witness for C10: a `dropped.py` module pairing an output stream with an
input schema is skipped, with its topic attribute set and fields collected
regardless. -/
theorem classifyModels_mutates_module_dropped_by_pairing_check_witness :
    classifyModels "streams" true
        [{ filename := "dropped.py", loads := true,
           streamClass := some ⟨StreamKind.output, none, none⟩,
           schemaClass := some ⟨SchemaKind.input, false, false⟩ }]
      = .ok { inputModels := [],
              outputModels := [],
              log := ["Invalid stream module: " ++ pyRemoveSuffix "dropped.py" ".py"
                ++ ". Schema class is not an OutputSchema"],
              processed :=
                [{ filename := "dropped.py", loads := true,
                   streamClass := some
                     { kind := StreamKind.output,
                       topic := some (pyRemoveSuffix "dropped.py" ".py"), schema := none },
                   schemaClass := some ⟨SchemaKind.input, true, false⟩ }] } :=
  classifyModels_mutates_module_dropped_by_pairing_check "streams" "dropped.py" (by decide)
    ⟨StreamKind.output, none, none⟩ ⟨SchemaKind.input, false, false⟩
    rfl (by decide)

end Kemux
